import Mathlib

/- Shallow embedding of the dispatch and parameter-marshalling core of the
   runar attribute-procedure crate.  Pure Rust functions under src/ are
   translated into Lean functions.  The token streams that the attribute
   procedures emit are embedded by translating the emitted program text,
   quoted verbatim in src/, since that text is what executes at dispatch
   time.  Types owned by external collaborator crates (runar_common values,
   the inventory collection, serde) are modelled from the specification and
   marked as such in their doc comments. -/

/-- Modelled from the spec: the universal tagged payload value (spec section 3
and the variants matched throughout src/src/vmap.rs and src/src/utils.rs:
String, Number, Bool, Array, Map, plus Null and Json).  The implementation
lives in the external runar_common crate, not under src/.  Map entries are
kept as an association list with unique keys; f64 numbers are carried as
exact rationals; a Json payload is abstracted as its rendered text. -/
inductive ValueType where
  | null
  | string (s : String)
  | number (n : Rat)
  | bool (b : Bool)
  | array (items : List ValueType)
  | map (entries : List (String × ValueType))
  | json (raw : String)

/-- Lookup of a key in a string-keyed entry list: HashMap::get over a map
whose keys are unique, so first match is the match. -/
def hashMapGet {α : Type} : List (String × α) → String → Option α
  | [], _ => none
  | (k, v) :: rest, key => if k = key then some v else hashMapGet rest key

/-- Embedding of extract_parameter from src/src/utils.rs lines 233-268.  The
TryFrom conversion of the generic target type T is passed as the function tf;
Rust error values are carried as rendered strings as the source renders them
with format. -/
def extract_parameter {α : Type} (tf : ValueType → Except String α)
    (params : ValueType) (name : String) (errorMsg : String) : Except String α :=
  match params with
  | ValueType.map m =>
    match hashMapGet m name with
    | some value =>
      match tf value with
      | Except.ok converted => Except.ok converted
      | Except.error e =>
        Except.error ("Error converting parameter '" ++ name ++ "': " ++ e)
    | none => Except.error errorMsg
  | _ =>
    match tf params with
    | Except.ok converted => Except.ok converted
    | Except.error e => Except.error ("Error converting direct parameter: " ++ e)

/-- Embedding of extract_param from src/src/utils.rs lines 271-291: the
non-generic-context variant, which requires the payload to be a map. -/
def extract_param {α : Type} (tf : ValueType → Except String α)
    (params : ValueType) (name : String) : Except String α :=
  match params with
  | ValueType.map m =>
    match hashMapGet m name with
    | some value =>
      match tf value with
      | Except.ok v => Except.ok v
      | Except.error err =>
        Except.error ("Failed to convert parameter '" ++ name ++ "': " ++ err)
    | none => Except.error ("Parameter '" ++ name ++ "' not found")
  | _ => Except.error "Parameters are not a map"

/-- Modelled from the spec: the Float64 conversion of the value model (spec
section 4.1); the concrete TryFrom impl lives in the external runar_common
crate.  This snapshot of the value model carries one Number variant, so the
converter succeeds exactly on Number. -/
def try_from_f64 : ValueType → Except String Rat
  | ValueType.number n => Except.ok n
  | _ => Except.error "value is not a number"

/-- Response status of the service world generated by src/src/lib.rs
(runar_node::services::ResponseStatus). -/
inductive ResponseStatus where
  | success
  | error
deriving DecidableEq

/-- ServiceResponse as constructed by the code generated in src/src/lib.rs
(status, message, data). -/
structure ServiceResponse where
  status : ResponseStatus
  message : String
  data : Option ValueType

/-- ServiceRequest as consumed by the code generated in src/src/lib.rs: an
action name and an optional payload. -/
structure ServiceRequest where
  action : String
  data : Option ValueType

/-- Embedding of the generated handle_request body from src/src/lib.rs lines
137-150: look the action up in the per-service registry; on a miss return an
Ok-wrapped error response naming the unknown action.  A handler is modelled
as a function from the request to the host Result. -/
def handle_request
    (action_registry : List (String × (ServiceRequest → Except String ServiceResponse)))
    (request : ServiceRequest) : Except String ServiceResponse :=
  match hashMapGet action_registry request.action with
  | some handler => handler request
  | none =>
    Except.ok
      { status := ResponseStatus.error
        message := "Unknown action: " ++ request.action
        data := none }

/-- Embedding of the generated register function from src/src/lib.rs lines
391-406: each action builds a fresh one-entry table mapping its action name
to its handler; the operation is total, there is no failure outcome.  The
handler closure is abstracted as an identifier. -/
def register_action_fn (action_name : String) (handler : Nat) : List (String × Nat) :=
  [(action_name, handler)]

/-- Error response emitted by the multi-parameter extraction arm generated by
src/src/lib.rs lines 313-329 when a declared parameter is absent from the map
or its stored value is not a String. -/
def missing_or_invalid_response (name : String) : ServiceResponse :=
  { status := ResponseStatus.error
    message := "Missing or invalid '" ++ name ++ "' parameter"
    data := none }

/-- Embedding of the per-parameter extraction loop generated by src/src/lib.rs
lines 315-330: each declared name must be present in the map and hold a
String; the first failure aborts with its named error response. -/
def extract_each_param (entries : List (String × ValueType)) :
    List String → Except ServiceResponse (List String)
  | [] => Except.ok []
  | n :: rest =>
    match hashMapGet entries n with
    | some (ValueType.string s) =>
      match extract_each_param entries rest with
      | Except.ok xs => Except.ok (s :: xs)
      | Except.error e => Except.error e
    | _ => Except.error (missing_or_invalid_response n)

/-- Embedding of the handler body generated by src/src/lib.rs for a method
with two or more declared parameters (lines 313-353 for extraction and lines
363-386 for invocation and normalization): the payload must be a map,
otherwise a fixed error response is returned before the target method runs;
on success the extracted arguments are passed to the method and its outcome
is normalized. -/
def multi_param_handler (names : List String) (action_name : String)
    (method : List String → Except String String)
    (request : ServiceRequest) : ServiceResponse :=
  match request.data with
  | some (ValueType.map m) =>
    match extract_each_param m names with
    | Except.error resp => resp
    | Except.ok args =>
      match method args with
      | Except.ok result =>
        { status := ResponseStatus.success
          message := "Operation " ++ action_name ++ " executed successfully"
          data := some (ValueType.string result) }
      | Except.error e =>
        { status := ResponseStatus.error
          message := "Error executing operation " ++ action_name ++ ": " ++ e
          data := none }
  | _ =>
    { status := ResponseStatus.error
      message := "Parameters must be provided as a map with appropriate keys"
      data := none }

/-- Modelled from the spec: the reference-counted tagged value of the
src/src/action.rs world (runar_common::types::ArcValueType, external to
src/), with the primitive, string and map shapes the generated code uses
(spec section 3 value model). -/
inductive ArcValue where
  | null
  | int (n : Int)
  | float (q : Rat)
  | bool (b : Bool)
  | str (s : String)
  | map (entries : List (String × ArcValue))

/-- ServiceResponse as constructed by the code generated in src/src/action.rs:
a numeric status (200 success, 400 extraction failure, 500 handler failure),
optional data, optional error text. -/
structure ServiceResponseArc where
  status : Nat
  data : Option ArcValue
  error : Option String

/-- Modelled from the spec: ArcValueType::new_primitive on an i32 result (spec
section 4.1 value model; the constructor lives in the external runar_common
crate) wraps the integer in the primitive integer variant. -/
def new_primitive_int (n : Int) : ArcValue :=
  ArcValue.int n

/-- Modelled from the spec: the Int32 conversion of the value model (spec
section 4.1: succeeds only on an integer-compatible variant, out-of-range
fails with Overflow; the impl lives in the external runar_common crate). -/
def as_type_i32 : ArcValue → Except String Int
  | ArcValue.int n =>
    if -(2 ^ 31) ≤ n ∧ n < 2 ^ 31 then Except.ok n else Except.error "Overflow"
  | _ => Except.error "TypeMismatch"

/-- Embedding of the result normalization generated by src/src/action.rs lines
211-233 and 275-288 for a primitive-returning method: Ok becomes a status-200
response carrying the primitive as data, Err becomes a status-500 response
carrying the rendered error. -/
def handle_action_result (res : Except String Int) : ServiceResponseArc :=
  match res with
  | Except.ok result =>
    { status := 200, data := some (new_primitive_int result), error := none }
  | Except.error err =>
    { status := 500, data := none, error := some err }

/-- Embedding of the handler closure generated by src/src/action.rs lines
246-290 for a method with zero declared parameters: has_params is false, so
an absent payload is replaced by an empty map, no parameter extraction code
is emitted, and the method result is normalized. -/
def zero_param_handler (method : Unit → Except String Int)
    (params_opt : Option ArcValue) : ServiceResponseArc :=
  let _params_value : ArcValue :=
    match params_opt with
    | some p => p
    | none => ArcValue.map []
  handle_action_result (method ())

/-- Modelled from the spec: conversion of every entry of an ArcValueType map
to f64 (spec section 4.1: Float64 succeeds for Float or Int, widening; fails
otherwise).  Used by the map view below. -/
def map_entries_to_f64 : List (String × ArcValue) → Except String (List (String × Rat))
  | [] => Except.ok []
  | (k, ArcValue.float q) :: rest =>
    match map_entries_to_f64 rest with
    | Except.ok m => Except.ok ((k, q) :: m)
    | Except.error e => Except.error e
  | (k, ArcValue.int n) :: rest =>
    match map_entries_to_f64 rest with
    | Except.ok m => Except.ok ((k, (n : Rat)) :: m)
    | Except.error e => Except.error e
  | (_, _) :: _ => Except.error "map values are not all f64"

/-- Modelled from the spec: ArcValueType::as_map_ref with String keys and f64
values (the method lives in the external runar_common crate).  Per spec
section 4.2 rule 3 the payload must be a Map to be viewed as one, and per
section 4.1 each entry must convert to Float64. -/
def as_map_ref_f64 : ArcValue → Except String (List (String × Rat))
  | ArcValue.map entries => map_entries_to_f64 entries
  | _ => Except.error "value is not a map"

/-- Embedding of the f64 parameter extraction generated by src/src/action.rs
lines 317-343: view the payload as a String-to-f64 map, then look the declared
name up; a failed map view or a missing key each return a status-400 response,
the missing-key response naming the exact missing parameter. -/
def action_extract_f64 (name : String) (params_value : ArcValue) :
    Except ServiceResponseArc Rat :=
  match as_map_ref_f64 params_value with
  | Except.ok m =>
    match hashMapGet m name with
    | some value => Except.ok value
    | none =>
      Except.error
        { status := 400, data := none, error := some ("Missing parameter " ++ name) }
  | Except.error err =>
    Except.error
      { status := 400, data := none
        error := some ("Failed to parse parameters as map with f64 values: " ++ err) }

/-- ActionItem from src/src/action_registry.rs lines 13-22: an operation name,
the owning service type identity, and the handler function, abstracted as an
identifier since the function body is a host future. -/
structure ActionItem where
  name : String
  service_type_id : Nat
  handler_fn : Nat
deriving DecidableEq

/-- Modelled from the spec: the inventory-style load-time collection (spec
section 9 design notes; the inventory crate is external to src/) gathers
every submitted ActionItem in submission order; submission has no failure
outcome. -/
def submit_action_item (collected : List ActionItem) (item : ActionItem) :
    List ActionItem :=
  collected ++ [item]

/-- Embedding of get_action_handlers from src/src/registry.rs lines 47-52 and
src/src/action_registry.rs lines 27-32: every collected item is returned. -/
def get_action_handlers (collected : List ActionItem) : List ActionItem :=
  collected

/-- Embedding of find_action_handler from src/src/action_registry.rs lines
34-39: the first collected item whose name equals the operation name; the
owner service type is not consulted. -/
def find_action_handler (operation_name : String) (collected : List ActionItem) :
    Option ActionItem :=
  (get_action_handlers collected).find? (fun handler => handler.name == operation_name)

/-- Embedding of dispatch_request from src/src/action_registry.rs lines 56-73:
find the handler by operation name, miss gives an Err naming the unknown
operation, hit applies the handler function to the service reference, the
request context, the operation (the path argument) and the params, exactly
the arguments the source forwards, and wraps a handler error with the
operation name.  The handler bodies are host futures, so handler_fn is
carried as an identifier and its application is abstracted as the function
run; the service (a dyn Any reference the handler may downcast) and the
context are carried at abstract types and forwarded untouched. -/
def dispatch_request {σ κ : Type} (collected : List ActionItem)
    (run : Nat → σ → κ → String → ValueType → Except String ServiceResponse)
    (service : σ) (context : κ) (operation : String) (params : ValueType) :
    Except String ServiceResponse :=
  match find_action_handler operation collected with
  | none => Except.error ("Unknown operation: " ++ operation)
  | some handler =>
    match run handler.handler_fn service context operation params with
    | Except.ok resp => Except.ok resp
    | Except.error e =>
      Except.error
        ("Error handling operation '" ++ operation ++ "': " ++ e)

/-- Modelled from the spec: the host-language value produced by the vmap
extraction form, which is heterogeneous in Rust; carried here as a tagged
value (a string, a signed integer after a cast, an exact rational, a boolean,
or an opaque value produced by serde deserialization). -/
inductive RustVal where
  | str (s : String)
  | int (n : Int)
  | rat (q : Rat)
  | boolean (b : Bool)
  | serde (v : ValueType)
  | other (tag : String)

/-- Rust cast of an f64 to i64: truncation toward zero, saturating at the
i64 bounds. -/
def f64_as_i64 (q : Rat) : Int :=
  let t : Int := if 0 ≤ q then Rat.floor q else Rat.ceil q
  max (-(2 ^ 63)) (min (2 ^ 63 - 1) t)

/-- Rust cast of an f64 to u64: truncation toward zero, saturating at the
u64 bounds; carried as an integer. -/
def f64_as_u64 (q : Rat) : Int :=
  let t : Int := if 0 ≤ q then Rat.floor q else Rat.ceil q
  max 0 (min (2 ^ 64 - 1) t)

/-- Rust integer cast into i32: wrap modulo 2 to the 32. -/
def wrap_i32 (n : Int) : Int :=
  (n + 2 ^ 31) % 2 ^ 32 - 2 ^ 31

/-- Rust integer cast into u32: wrap modulo 2 to the 32. -/
def wrap_u32 (n : Int) : Int :=
  n % 2 ^ 32

/-- Number branch of the vmap extraction for the signed target types: the
source casts the f64 to i64 and then to the default type. -/
def num_as_signed (tn : String) (n : Rat) : Int :=
  if tn = "i32" then wrap_i32 (f64_as_i64 n) else f64_as_i64 n

/-- Number branch of the vmap extraction for the unsigned target types: the
source casts the f64 to u64 and then to the default type. -/
def num_as_unsigned (tn : String) (n : Rat) : Int :=
  if tn = "u32" then wrap_u32 (f64_as_u64 n) else f64_as_u64 n

/-- Embedding of the key-extraction arm of the vmap form from src/src/vmap.rs
lines 47-107.  The compile-time type dispatch on type_name_of_val of the
supplied default is carried by the string tn; the serde round trip used by
the Array and Map branches is external and passed as the function conv, a
failed conversion falling back to the default exactly as the source does.
Every branch of the source yields a value, so the embedding is a total
function. -/
def vmap_get (conv : ValueType → Option RustVal) (map_expr : ValueType)
    (key : String) (tn : String) (default : RustVal) : RustVal :=
  match map_expr with
  | ValueType.map m =>
    match hashMapGet m key with
    | some value =>
      match value with
      | ValueType.string s =>
        if tn = "std::string::String" ∨ tn = "&str" then RustVal.str s else default
      | ValueType.number n =>
        if tn = "i32" ∨ tn = "i64" then RustVal.int (num_as_signed tn n)
        else if tn = "u32" ∨ tn = "u64" then RustVal.int (num_as_unsigned tn n)
        else if tn = "f32" ∨ tn = "f64" then RustVal.rat n
        else default
      | ValueType.bool b =>
        if tn = "bool" then RustVal.boolean b else default
      | ValueType.array a =>
        match conv (ValueType.array a) with
        | some typed => typed
        | none => default
      | ValueType.map inner_map =>
        match conv (ValueType.map inner_map) with
        | some typed => typed
        | none => default
      | _ => default
    | none => default
  | _ => default

/-- Mismatch between a stored value variant and the type of the supplied
default, following the branches of the vmap extraction arm: a String value
against a non-string default type, a Number against a non-numeric one, a
Bool against a non-bool one, an Array or Map whose serde conversion to the
default type fails, and the variants the arm never converts. -/
def variant_mismatch (conv : ValueType → Option RustVal) (tn : String) :
    ValueType → Prop
  | ValueType.string _ => tn ≠ "std::string::String" ∧ tn ≠ "&str"
  | ValueType.number _ =>
    tn ≠ "i32" ∧ tn ≠ "i64" ∧ tn ≠ "u32" ∧ tn ≠ "u64" ∧ tn ≠ "f32" ∧ tn ≠ "f64"
  | ValueType.bool _ => tn ≠ "bool"
  | ValueType.array a => conv (ValueType.array a) = none
  | ValueType.map m => conv (ValueType.map m) = none
  | _ => True

/-- Condition of the vmap default-fallback claim: the input is not a Map, or
the key is absent, or the stored value's variant does not match the type of
the supplied default. -/
def vmap_default_case (conv : ValueType → Option RustVal) (map_expr : ValueType)
    (key : String) (tn : String) : Prop :=
  (∀ m, map_expr ≠ ValueType.map m) ∨
  (∃ m, map_expr = ValueType.map m ∧ hashMapGet m key = none) ∨
  (∃ m w, map_expr = ValueType.map m ∧ hashMapGet m key = some w ∧
    variant_mismatch conv tn w)

/-- C1 counterexample: a single-parameter f64 handler generated by
src/src/action.rs is not payload-shape-agnostic — its extraction goes through
the typed map view for every parameter count, so the bare payload Float(3.5)
is rejected with the status-400 map-parse response while the Map payload
holding 3.5 under the declared name x succeeds; the two do not both
succeed. -/
theorem single_param_bare_payload_rejected_cex :
    action_extract_f64 "x" (ArcValue.float 3.5) =
      Except.error
        { status := 400, data := none
          error := some ("Failed to parse parameters as map with f64 values: "
            ++ "value is not a map") } ∧
    action_extract_f64 "x" (ArcValue.map [("x", ArcValue.float 3.5)]) =
      Except.ok (3.5 : Rat) :=
  ⟨rfl, rfl⟩

/-- C1 (amended): single-parameter extraction through extract_parameter
(utils.rs) is payload-shape-agnostic — for a payload of the declared
parameter type (its conversion succeeds; a bare value, not a map) it yields
the converted value both when handed the bare payload and when handed a Map
payload holding that value under the declared parameter name.  The handlers
generated by action.rs, however, extract every parameter through a typed map
view of the payload, so their single-parameter extraction rejects every bare
(non-map) payload with the status-400 map-parse response instead of
accepting it. -/
theorem extract_parameter_shape_agnostic {α : Type}
    (tf : ValueType → Except String α) (v : ValueType)
    (entries : List (String × ValueType)) (name errorMsg : String) (x : α)
    (pname : String) (pv : ArcValue)
    (hconv : tf v = Except.ok x)
    (hbare : ∀ es, v ≠ ValueType.map es)
    (hmap : hashMapGet entries name = some v)
    (hpv : ∀ es, pv ≠ ArcValue.map es) :
    extract_parameter tf v name errorMsg = Except.ok x ∧
    extract_parameter tf (ValueType.map entries) name errorMsg = Except.ok x ∧
    action_extract_f64 pname pv =
      Except.error
        { status := 400, data := none
          error := some ("Failed to parse parameters as map with f64 values: "
            ++ "value is not a map") } := by
  refine ⟨?_, ?_, ?_⟩
  · cases v with
    | map es => exact absurd rfl (hbare es)
    | null => simp [extract_parameter, hconv]
    | string s => simp [extract_parameter, hconv]
    | number n => simp [extract_parameter, hconv]
    | bool b => simp [extract_parameter, hconv]
    | array items => simp [extract_parameter, hconv]
    | json raw => simp [extract_parameter, hconv]
  · simp [extract_parameter, hmap, hconv]
  · cases pv with
    | map es => exact absurd rfl (hpv es)
    | null => rfl
    | int n => rfl
    | float q => rfl
    | bool b => rfl
    | str s => rfl

/-- Witness for C1 at the spec example: a Float64 parameter named x, payload
3.5 bare and wrapped under x in a map for extract_parameter, and a bare
(null) payload rejected by the action.rs map-view extraction. -/
theorem extract_parameter_shape_agnostic_witness :
    extract_parameter try_from_f64 (ValueType.number 3.5) "x" "missing" =
      Except.ok (3.5 : Rat) ∧
    extract_parameter try_from_f64
      (ValueType.map [("x", ValueType.number 3.5)]) "x" "missing" =
      Except.ok (3.5 : Rat) ∧
    action_extract_f64 "x" ArcValue.null =
      Except.error
        { status := 400, data := none
          error := some ("Failed to parse parameters as map with f64 values: "
            ++ "value is not a map") } :=
  extract_parameter_shape_agnostic try_from_f64 (ValueType.number 3.5)
    [("x", ValueType.number 3.5)] "x" "missing" (3.5 : Rat) "x" ArcValue.null
    rfl (fun _ h => ValueType.noConfusion h) rfl
    (fun _ h => ArcValue.noConfusion h)

/-- C4 counterexample: in the dispatch_request path (action_registry.rs), an
operation name that was never registered does not produce a response with
Error status — the dispatch returns the Err value naming the unknown
operation, which the caller must handle; no Ok-wrapped response is
produced. -/
theorem unknown_operation_err_not_response_cex :
    dispatch_request []
      (fun _ _ _ _ _ =>
        Except.ok { status := ResponseStatus.success, message := "", data := none })
      (0 : Nat) (0 : Nat) "subtract" ValueType.null =
      Except.error ("Unknown operation: " ++ "subtract") :=
  rfl

/-- C4 (amended): dispatching an operation name that was never registered
never panics and its error always contains the operation name, but only the
generated handle_request (lib.rs) returns an Ok-wrapped response with Error
status whose message contains the name; dispatch_request (action_registry.rs)
instead returns an Err value naming the unknown operation, which the caller
must handle — not an Error-status response. -/
theorem unknown_action_error_response {σ κ : Type}
    (reg : List (String × (ServiceRequest → Except String ServiceResponse)))
    (request : ServiceRequest) (collected : List ActionItem)
    (run : Nat → σ → κ → String → ValueType → Except String ServiceResponse)
    (service : σ) (context : κ) (op : String) (params : ValueType)
    (hmiss : hashMapGet reg request.action = none)
    (hmiss2 : find_action_handler op collected = none) :
    handle_request reg request =
      Except.ok
        { status := ResponseStatus.error
          message := "Unknown action: " ++ request.action
          data := none } ∧
    (∃ p, "Unknown action: " ++ request.action = p ++ request.action) ∧
    dispatch_request collected run service context op params =
      Except.error ("Unknown operation: " ++ op) ∧
    (∃ p, "Unknown operation: " ++ op = p ++ op) := by
  refine ⟨?_, ⟨"Unknown action: ", rfl⟩, ?_, ⟨"Unknown operation: ", rfl⟩⟩
  · simp [handle_request, hmiss]
  · simp [dispatch_request, hmiss2]

/-- Witness for C4: dispatching subtract against empty registries on both
paths. -/
theorem unknown_action_error_response_witness :
    handle_request [] { action := "subtract", data := none } =
      Except.ok
        { status := ResponseStatus.error
          message := "Unknown action: " ++ "subtract"
          data := none } ∧
    (∃ p, "Unknown action: " ++ "subtract" = p ++ "subtract") ∧
    dispatch_request []
      (fun _ _ _ _ _ =>
        Except.ok { status := ResponseStatus.success, message := "", data := none })
      (1 : Nat) (1 : Nat) "subtract" ValueType.null =
      Except.error ("Unknown operation: " ++ "subtract") ∧
    (∃ p, "Unknown operation: " ++ "subtract" = p ++ "subtract") :=
  unknown_action_error_response [] { action := "subtract", data := none } []
    (fun _ _ _ _ _ =>
      Except.ok { status := ResponseStatus.success, message := "", data := none })
    (1 : Nat) (1 : Nat) "subtract" ValueType.null rfl rfl

/-- C5: a handler with two or more declared parameters rejects every payload
that is not a Map with a fixed extraction-error response, the same response
for every target method, so the method is never invoked; extract_param
likewise rejects every non-map payload.  Both embeddings are total functions:
the rejection is a returned error, not a panic. -/
theorem multi_param_non_map_rejected {α : Type}
    (names : List String) (action_name : String)
    (method : List String → Except String String) (request : ServiceRequest)
    (tf : ValueType → Except String α) (v : ValueType) (pname : String)
    (hlen : 2 ≤ names.length)
    (hdata : ∀ m, request.data ≠ some (ValueType.map m))
    (hv : ∀ m, v ≠ ValueType.map m) :
    multi_param_handler names action_name method request =
      { status := ResponseStatus.error
        message := "Parameters must be provided as a map with appropriate keys"
        data := none } ∧
    extract_param tf v pname = Except.error "Parameters are not a map" := by
  constructor
  · obtain ⟨a, d⟩ := request
    cases d with
    | none => rfl
    | some val =>
      cases val with
      | map m => exact absurd rfl (hdata m)
      | null => rfl
      | string s => rfl
      | number n => rfl
      | bool b => rfl
      | array items => rfl
      | json raw => rfl
  · cases v with
    | map m => exact absurd rfl (hv m)
    | null => rfl
    | string s => rfl
    | number n => rfl
    | bool b => rfl
    | array items => rfl
    | json raw => rfl

/-- Witness for C5: a two-parameter handler dispatched with a bare string
payload. -/
theorem multi_param_non_map_rejected_witness :
    multi_param_handler ["a", "b"] "add" (fun _ => Except.ok "r")
      { action := "add", data := some (ValueType.string "x") } =
      { status := ResponseStatus.error
        message := "Parameters must be provided as a map with appropriate keys"
        data := none } ∧
    extract_param try_from_f64 (ValueType.string "x") "a" =
      Except.error "Parameters are not a map" :=
  multi_param_non_map_rejected ["a", "b"] "add" (fun _ => Except.ok "r")
    { action := "add", data := some (ValueType.string "x") } try_from_f64
    (ValueType.string "x") "a" (by decide)
    (fun _ h => ValueType.noConfusion (Option.some.inj h))
    (fun _ h => ValueType.noConfusion h)

/-- C7: a handler declared with return type Int32 whose invocation succeeds
with an in-range value produces the success response (status 200) carrying
the value as primitive data and no error text, and the Int32 conversion of
that same data yields the value back — the success round trip. -/
theorem int32_success_round_trip (n : Int)
    (hrange : -(2 ^ 31) ≤ n ∧ n < 2 ^ 31) :
    handle_action_result (Except.ok n) =
      { status := 200, data := some (ArcValue.int n), error := none } ∧
    as_type_i32 (ArcValue.int n) = Except.ok n := by
  refine ⟨rfl, ?_⟩
  have h : as_type_i32 (ArcValue.int n) =
      if -(2 ^ 31) ≤ n ∧ n < 2 ^ 31 then Except.ok n else Except.error "Overflow" := rfl
  rw [h, if_pos hrange]

/-- Witness for C7 at the spec example value 7. -/
theorem int32_success_round_trip_witness :
    handle_action_result (Except.ok 7) =
      { status := 200, data := some (ArcValue.int 7), error := none } ∧
    as_type_i32 (ArcValue.int 7) = Except.ok 7 :=
  int32_success_round_trip 7 (by decide)

/-- C8: a zero-parameter handler ignores the payload entirely — its response
is the same for every payload (no extraction code that looks up named keys is
emitted for it), and with payload absent, Null, or an empty Map a successful
method invocation yields the success response. -/
theorem zero_param_ignores_payload (method : Unit → Except String Int) (r : Int)
    (hok : method () = Except.ok r) :
    (∀ p q, zero_param_handler method p = zero_param_handler method q) ∧
    zero_param_handler method none =
      { status := 200, data := some (ArcValue.int r), error := none } ∧
    zero_param_handler method (some ArcValue.null) =
      { status := 200, data := some (ArcValue.int r), error := none } ∧
    zero_param_handler method (some (ArcValue.map [])) =
      { status := 200, data := some (ArcValue.int r), error := none } := by
  refine ⟨fun p q => rfl, ?_, ?_, ?_⟩ <;>
    simp [zero_param_handler, handle_action_result, hok, new_primitive_int]

/-- Witness for C8: a zero-parameter method returning 1, dispatched with the
three payload shapes of the claim. -/
theorem zero_param_ignores_payload_witness :
    zero_param_handler (fun _ => Except.ok 1) none =
      { status := 200, data := some (ArcValue.int 1), error := none } ∧
    zero_param_handler (fun _ => Except.ok 1) (some ArcValue.null) =
      { status := 200, data := some (ArcValue.int 1), error := none } ∧
    zero_param_handler (fun _ => Except.ok 1) (some (ArcValue.map [])) =
      { status := 200, data := some (ArcValue.int 1), error := none } :=
  (zero_param_ignores_payload (fun _ => Except.ok 1) 1 rfl).2

/-- C2 counterexample: registering a second handler under an already-taken
(owner type, operation name) key does not fail — the load-time collection
appends it (there is no failure outcome, as there is none in the generated
register functions), and lookup then silently yields only the
first-registered entry, the second being shadowed. -/
theorem duplicate_registration_never_fails_cex :
    submit_action_item (submit_action_item [] ⟨"op", 7, 10⟩) ⟨"op", 7, 20⟩ =
      [⟨"op", 7, 10⟩, ⟨"op", 7, 20⟩] ∧
    register_action_fn "op" 10 = [("op", 10)] ∧
    register_action_fn "op" 20 = [("op", 20)] ∧
    find_action_handler "op" [⟨"op", 7, 10⟩, ⟨"op", 7, 20⟩] = some ⟨"op", 7, 10⟩ ∧
    (⟨"op", 7, 10⟩ : ActionItem) ≠ ⟨"op", 7, 20⟩ := by
  refine ⟨rfl, rfl, rfl, by decide, by decide⟩

/-- C2 (amended): registration never fails — submitting a handler whose
(owner type, operation name) key is already present succeeds and keeps both
entries in the collection, and lookup by that name still returns the earlier
entry, so the duplicate is silently shadowed rather than rejected. -/
theorem duplicate_registration_collects_and_shadows (collected : List ActionItem)
    (item j : ActionItem) (hj : j ∈ collected) (hname : j.name = item.name) :
    get_action_handlers (submit_action_item collected item) = collected ++ [item] ∧
    find_action_handler item.name (submit_action_item collected item) =
      find_action_handler item.name collected ∧
    (find_action_handler item.name collected).isSome = true := by
  have hsome : (collected.find? (fun h => h.name == item.name)).isSome := by
    rw [List.find?_isSome]
    exact ⟨j, hj, by simp [hname]⟩
  refine ⟨rfl, ?_, hsome⟩
  unfold find_action_handler get_action_handlers submit_action_item
  rw [List.find?_append, Option.or_of_isSome hsome]

/-- Witness for C2: a second handler submitted under the taken key op. -/
theorem duplicate_registration_collects_and_shadows_witness :
    get_action_handlers (submit_action_item [⟨"op", 7, 10⟩] ⟨"op", 7, 20⟩) =
      [⟨"op", 7, 10⟩] ++ [⟨"op", 7, 20⟩] ∧
    find_action_handler "op" (submit_action_item [⟨"op", 7, 10⟩] ⟨"op", 7, 20⟩) =
      find_action_handler "op" [⟨"op", 7, 10⟩] ∧
    (find_action_handler "op" [⟨"op", 7, 10⟩]).isSome = true :=
  duplicate_registration_collects_and_shadows [⟨"op", 7, 10⟩] ⟨"op", 7, 20⟩
    ⟨"op", 7, 10⟩ (List.mem_singleton.mpr rfl) rfl

/-- C3 counterexample: lookup does not consult the owner type — the registry
holds one entry owned by type 1, and find_action_handler, which takes no
owner type at all, returns that entry; a dispatch whose service argument is a
caller of the different type 2 (the service token carried as its type
identity) still selects that entry and hands the service to its handler
instead of reporting an unknown operation. -/
theorem lookup_ignores_owner_type_cex :
    (ActionItem.mk "op" 1 10).service_type_id ≠ 2 ∧
    find_action_handler "op" [⟨"op", 1, 10⟩] = some ⟨"op", 1, 10⟩ ∧
    dispatch_request [⟨"op", 1, 10⟩]
      (fun _ _ _ _ _ => Except.ok { status := ResponseStatus.success,
                                    message := "ran handler", data := none })
      (2 : Nat) (0 : Nat) "op" ValueType.null =
      Except.ok { status := ResponseStatus.success,
                  message := "ran handler", data := none } :=
  ⟨by decide, by decide, rfl⟩

/-- C3 (amended): handler lookup is keyed by the operation name alone — an
entry is returned exactly when its name matches (None on a miss, never a
thrown error), and the lookup result is invariant under arbitrary relabeling
of every entry's owner type identity, so an entry with a matching name but a
different owner type is still returned.  What the handler then does with the
service reference it receives is the handler's own affair. -/
theorem lookup_by_name_only (collected : List ActionItem) (op : String) :
    (∀ item, find_action_handler op collected = some item → item.name = op) ∧
    (find_action_handler op collected = none ↔ ∀ i ∈ collected, i.name ≠ op) ∧
    (∀ f : Nat → Nat,
      find_action_handler op
        (collected.map (fun i => ActionItem.mk i.name (f i.service_type_id) i.handler_fn)) =
      (find_action_handler op collected).map
        (fun i => ActionItem.mk i.name (f i.service_type_id) i.handler_fn)) := by
  refine ⟨?_, ?_, ?_⟩
  · intro item h
    unfold find_action_handler get_action_handlers at h
    have hp := List.find?_some h
    simpa using hp
  · unfold find_action_handler get_action_handlers
    rw [List.find?_eq_none]
    constructor
    · intro h i hi
      have hp := h i hi
      simpa using hp
    · intro h i hi
      simp [h i hi]
  · intro f
    unfold find_action_handler get_action_handlers
    rw [List.find?_map]
    rfl

/-- Helper for C6: the multi-parameter extraction loop stops at the first
declared name that fails, and when every earlier name is present as a String
while the key k is absent, the surfaced error is exactly the response naming
k. -/
theorem extract_each_param_first_missing (pre : List String) :
    ∀ (k : String) (rest : List String) (m : List (String × ValueType)),
    (∀ n ∈ pre, ∃ s, hashMapGet m n = some (ValueType.string s)) →
    hashMapGet m k = none →
    extract_each_param m (pre ++ k :: rest) =
      Except.error (missing_or_invalid_response k) := by
  induction pre with
  | nil =>
    intro k rest m _ hk
    simp only [List.nil_append, extract_each_param, hk]
  | cons n pre ih =>
    intro k rest m hpre hk
    obtain ⟨s, hs⟩ := hpre n (List.mem_cons_self n pre)
    simp only [List.cons_append, extract_each_param, hs]
    rw [List.append_eq, ih k rest m (fun x hx => hpre x (List.mem_cons_of_mem n hx)) hk]

/-- C6: a Map payload lacking a declared parameter yields an error naming the
exact missing parameter, and that error is the one surfaced to the caller:
extract_param reports the missing name, the generated multi-parameter handler
returns the response naming the first missing key k, and the generated f64
extraction returns the status-400 response naming the missing parameter. -/
theorem missing_parameter_named_error {α : Type}
    (tf : ValueType → Except String α)
    (entries : List (String × ValueType)) (name : String)
    (pre rest : List String) (k action_name : String)
    (m : List (String × ValueType))
    (method : List String → Except String String) (payload_action : String)
    (pv : ArcValue) (fm : List (String × Rat)) (pname : String)
    (h1 : hashMapGet entries name = none)
    (hpre : ∀ n ∈ pre, ∃ s, hashMapGet m n = some (ValueType.string s))
    (hk : hashMapGet m k = none)
    (h2 : as_map_ref_f64 pv = Except.ok fm)
    (h3 : hashMapGet fm pname = none) :
    extract_param tf (ValueType.map entries) name =
      Except.error ("Parameter '" ++ name ++ "' not found") ∧
    multi_param_handler (pre ++ k :: rest) action_name method
      { action := payload_action, data := some (ValueType.map m) } =
      missing_or_invalid_response k ∧
    action_extract_f64 pname pv =
      Except.error { status := 400, data := none,
                     error := some ("Missing parameter " ++ pname) } := by
  refine ⟨?_, ?_, ?_⟩
  · simp [extract_param, h1]
  · simp only [multi_param_handler]
    rw [extract_each_param_first_missing pre k rest m hpre hk]
  · simp [action_extract_f64, h2, h3]

/-- Witness for C6: a two-parameter handler with parameters a and b, handed
maps holding only a. -/
theorem missing_parameter_named_error_witness :
    extract_param try_from_f64 (ValueType.map []) "b" =
      Except.error ("Parameter '" ++ "b" ++ "' not found") ∧
    multi_param_handler (["a"] ++ "b" :: []) "add" (fun _ => Except.ok "r")
      { action := "add", data := some (ValueType.map [("a", ValueType.string "1")]) } =
      missing_or_invalid_response "b" ∧
    action_extract_f64 "b" (ArcValue.map [("a", ArcValue.float 2)]) =
      Except.error { status := 400, data := none,
                     error := some ("Missing parameter " ++ "b") } :=
  missing_parameter_named_error try_from_f64 [] "b" ["a"] [] "b" "add"
    [("a", ValueType.string "1")] (fun _ => Except.ok "r") "add"
    (ArcValue.map [("a", ArcValue.float 2)]) [("a", (2 : Rat))] "b"
    rfl (by intro n hn; rw [List.mem_singleton] at hn; subst hn; exact ⟨"1", rfl⟩)
    rfl rfl rfl

/-- C10: the vmap key-extraction form is a total function that falls back to
the caller-supplied default whenever the input is not a Map, the key is
absent, or the stored value's variant does not match the type of the supplied
default. -/
theorem vmap_default_on_no_match (conv : ValueType → Option RustVal)
    (map_expr : ValueType) (key tn : String) (default : RustVal)
    (h : vmap_default_case conv map_expr key tn) :
    vmap_get conv map_expr key tn default = default := by
  rcases h with h | ⟨m, rfl, hget⟩ | ⟨m, w, rfl, hget, hmm⟩
  · cases map_expr with
    | map m => exact absurd rfl (h m)
    | null => rfl
    | string s => rfl
    | number n => rfl
    | bool b => rfl
    | array a => rfl
    | json r => rfl
  · simp [vmap_get, hget]
  · cases w with
    | string s =>
      obtain ⟨ha, hb⟩ := hmm
      simp [vmap_get, hget, ha, hb]
    | number n =>
      obtain ⟨ha, hb, hc, hd, he, hf⟩ := hmm
      simp [vmap_get, hget, ha, hb, hc, hd, he, hf]
    | bool b =>
      simp only [variant_mismatch] at hmm
      simp [vmap_get, hget, hmm]
    | array a =>
      simp only [variant_mismatch] at hmm
      simp [vmap_get, hget, hmm]
    | map m2 =>
      simp only [variant_mismatch] at hmm
      simp [vmap_get, hget, hmm]
    | null => simp [vmap_get, hget]
    | json r => simp [vmap_get, hget]

/-- Witness for C10: a non-map input with an i32 default falls back to the
default. -/
theorem vmap_default_on_no_match_witness :
    vmap_get (fun _ => none) (ValueType.string "u") "k" "i32" (RustVal.int 0) =
      RustVal.int 0 :=
  vmap_default_on_no_match (fun _ => none) (ValueType.string "u") "k" "i32"
    (RustVal.int 0) (Or.inl (fun _ h => ValueType.noConfusion h))
